import Mathlib

/-!
Verification of the Samil Power inverter client (`samil` package).

Bytes are modelled as `List Nat` (each entry a byte value `< 256` in real
runs).  Python's fallible operations (`int.to_bytes` raising
`OverflowError`, dictionary lookup raising `KeyError`, `read_message`
raising exceptions) are modelled with `Option`/`Except`.
-/

set_option maxRecDepth 40000

namespace Samil

/-- Model of Python `n.to_bytes(2, byteorder='big')`: the two big-endian
base-256 digits of `n`, or `none` when `n` does not fit in two bytes
(Python raises `OverflowError` in that case). -/
def toBytes2BE (n : Nat) : Option (List Nat) :=
  if n < 65536 then some [n / 256, n % 256] else none

/-- Model of Python `int.from_bytes(l, byteorder='big')` (unsigned). -/
def fromBytesBE (l : List Nat) : Nat :=
  l.foldl (fun a b => 256 * a + b) 0

/-- `calculate_checksum` from `samil/inverter.py`:
`sum(message).to_bytes(2, byteorder='big')`.  `none` models the
`OverflowError` raised when the sum does not fit in two bytes. -/
def calculate_checksum (message : List Nat) : Option (List Nat) :=
  toBytes2BE message.sum

/-- `construct_message` from `samil/inverter.py`: magic `55 aa`, identifier,
2-byte big-endian payload size, payload, checksum.  `none` models an
`OverflowError` from either `to_bytes` call. -/
def construct_message (identifier payload : List Nat) : Option (List Nat) :=
  (toBytes2BE payload.length).bind fun payload_size =>
    (calculate_checksum ([85, 170] ++ identifier ++ payload_size ++ payload)).map
      fun checksum => [85, 170] ++ identifier ++ payload_size ++ payload ++ checksum

/-- The exceptions that `read_message` can raise. -/
inductive ReadErr where
  /-- `InverterEOFError`: EOF at the start of a message. -/
  | InverterEOFError : ReadErr
  /-- `ValueError("Invalid start of message")`. -/
  | ValueErrorStart : ReadErr
  /-- `ValueError("Unexpected payload size value")`. -/
  | ValueErrorSize : ReadErr
  /-- `ValueError("Checksum invalid for message ...")`. -/
  | ValueErrorChecksum : ReadErr
  /-- `OverflowError` from `calculate_checksum` on the received bytes. -/
  | OverflowError : ReadErr
deriving DecidableEq

/-- `read_message` from `samil/inverter.py` over a byte stream modelled as a
list.  `stream.read(n)` is `take n` (a buffered read returns at most `n`
bytes, fewer only at EOF).  On success returns the parsed
`(identifier, payload)` and the unconsumed rest of the stream. -/
def read_message (stream : List Nat) :
    Except ReadErr ((List Nat × List Nat) × List Nat) :=
  let start := stream.take 2
  if start = [] then Except.error ReadErr.InverterEOFError
  else if start ≠ [85, 170] then Except.error ReadErr.ValueErrorStart
  else
    let s1 := stream.drop 2
    let identifier := s1.take 3
    let s2 := s1.drop 3
    let payload_size_bytes := s2.take 2
    let s3 := s2.drop 2
    let payload_size := fromBytesBE payload_size_bytes
    if 4096 < payload_size then Except.error ReadErr.ValueErrorSize
    else
      let payload := s3.take payload_size
      let s4 := s3.drop payload_size
      let checksum := s4.take 2
      let rest := s4.drop 2
      let message := start ++ identifier ++ payload_size_bytes ++ payload
      match calculate_checksum message with
      | none => Except.error ReadErr.OverflowError
      | some c =>
        if checksum ≠ c then Except.error ReadErr.ValueErrorChecksum
        else Except.ok ((identifier, payload), rest)

/-! ## Status descriptor engine (`samil/statustypes.py`) -/

/-- Model of Python `bytes.find(b)` for a single byte value: the first index
of `b` in the sequence, `none` standing for Python's `-1`. -/
def bytes_find (fmt : List Nat) (t : Nat) : Option Nat :=
  match fmt with
  | [] => none
  | b :: rest => if b = t then some 0 else (bytes_find rest t).map (· + 1)

/-- Model of the Python slice `l[a : b]` for `0 ≤ a ≤ b` (indices are
clamped to the length, never an error). -/
def pySlice (l : List Nat) (a b : Nat) : List Nat :=
  (l.drop a).take (b - a)

/-- Turn a list of optional values into an optional list; `none` iff some
entry is `none` (models the `-1 in indices` check). -/
def seqOpt {α : Type} : List (Option α) → Option (List α)
  | [] => some []
  | none :: _ => none
  | some a :: rest => (seqOpt rest).map fun l => a :: l

/-- `BytesStatusType.get_value`: find each type ID in the format; if any is
absent return `None`; otherwise concatenate the 2-byte slots
`payload[i*2 : i*2+2]`. -/
def bytesStatusType_get_value (type_ids : List Nat) (status_format status_payload : List Nat) :
    Option (List Nat) :=
  match seqOpt (type_ids.map (bytes_find status_format)) with
  | none => none
  | some indices =>
    some ((indices.map fun i => pySlice status_payload (i * 2) (i * 2 + 2)).flatten)

/-- Model of Python `int.from_bytes(l, byteorder='big', signed=signed)`,
including the empty-sequence case (which yields `0`). -/
def int_from_bytes (signed : Bool) (l : List Nat) : Int :=
  let u := fromBytesBE l
  if signed = true ∧ 2 ^ (8 * l.length - 1) ≤ u then
    (u : Int) - 2 ^ (8 * l.length)
  else (u : Int)

/-- `IntStatusType.get_value`. -/
def intStatusType_get_value (type_ids : List Nat) (signed : Bool)
    (status_format status_payload : List Nat) : Option Int :=
  (bytesStatusType_get_value type_ids status_format status_payload).map
    (int_from_bytes signed)

/-- Model of `Decimal(n).scaleb(s)`: the exact value `n * 10 ^ s` as a
rational number. -/
def decimal_scaleb (n : Int) (s : Int) : Rat :=
  (n : Rat) * (if 0 ≤ s then ((10 : Rat) ^ s.toNat) else ((10 : Rat) ^ (-s).toNat)⁻¹)

/-- `DecimalStatusType.get_value`. -/
def decimalStatusType_get_value (type_ids : List Nat) (scale : Int) (signed : Bool)
    (status_format status_payload : List Nat) : Option Rat :=
  (intStatusType_get_value type_ids signed status_format status_payload).map
    fun n => decimal_scaleb n scale

/-- The `operating_modes` dictionary of `OperationModeStatusType.get_value`;
`none` for a key not in the dictionary (lookup raises `KeyError`). -/
def operating_modes (n : Int) : Option String :=
  if n = 0 then some "Wait"
  else if n = 1 then some "Normal"
  else if n = 2 then some "Fault"
  else if n = 3 then some "Permanent fault"
  else if n = 4 then some "Check"
  else if n = 5 then some "PV power off"
  else none

/-- Python exceptions raised by dictionary lookup. -/
inductive PyErr where
  /-- `KeyError`. -/
  | KeyError : PyErr
deriving DecidableEq

/-- `OperationModeStatusType.get_value`: looks up the integer value of type
ID `0x0c` in `operating_modes`.  When the type ID is absent the integer is
`None` and the Python lookup `operating_modes[None]` raises `KeyError`;
likewise an out-of-range integer raises `KeyError`. -/
def operationModeStatusType_get_value (status_format status_payload : List Nat) :
    Except PyErr (Option String) :=
  match intStatusType_get_value [12] false status_format status_payload with
  | none => Except.error PyErr.KeyError
  | some n =>
    match operating_modes n with
    | none => Except.error PyErr.KeyError
    | some s => Except.ok (some s)

/-! ## Request correlation (`Inverter.request`) -/

/-- The receive loop of `Inverter.request`: read messages until one whose
identifier starts with `expected`; earlier non-matching messages are
collected (each is logged with a warning in the source, not an error).
Returns the discarded messages and the accepted one (`none` if the modelled
incoming sequence is exhausted without a match, in which case the real code
would keep blocking on the socket). -/
def requestRecvLoop (expected : List Nat) :
    List (List Nat × List Nat) → List (List Nat × List Nat) × Option (List Nat × List Nat)
  | [] => ([], none)
  | r :: rest =>
    if expected.isPrefixOf r.1 then ([], some r)
    else
      let p := requestRecvLoop expected rest
      (r :: p.1, p.2)

/-- `Inverter.request`: send one message (the constructed frame), then run
the receive loop over the incoming responses. -/
def request (identifier payload expected : List Nat)
    (responses : List (List Nat × List Nat)) :
    Option (List Nat) × List (List Nat × List Nat) × Option (List Nat × List Nat) :=
  (construct_message identifier payload, requestRecvLoop expected responses)

/-! ## Discovery (`InverterFinder.find_inverter`) -/

/-- The error raised when no inverter answered any advertisement round. -/
inductive FindErr where
  /-- `InverterNotFoundError`. -/
  | InverterNotFoundError : FindErr
deriving DecidableEq

/-- `InverterFinder.find_inverter`, modelled over the per-round accept
outcomes: entry `i` of `accepts` is `some conn` when an inbound connection
arrives within `interval` seconds of round `i`'s broadcast and `none` when
the accept times out.  Returns the number of broadcasts sent together with
the accepted connection or the `InverterNotFoundError` raised after the
loop. -/
def find_inverter {α : Type} : List (Option α) → Nat × Except FindErr α
  | [] => (0, Except.error FindErr.InverterNotFoundError)
  | some c :: _ => (1, Except.ok c)
  | none :: rest =>
    let p := find_inverter rest
    (p.1 + 1, p.2)

/-! ## Keep-alive wrapper (`KeepAliveInverter`)

The wire behaviour is modelled as explicit state passing: `KAState.trace`
records the wire events in order and `KAState.running` records whether the
keep-alive thread is live (between `start_keep_alive` and the
`stop`/`join` of `stop_keep_alive`).  Scheduling nondeterminism — how many
times the keep-alive timer expires while the thread is live — is a `Nat`
parameter. -/

/-- Which logical sender produced a wire event. -/
inductive Who where
  /-- A foreground operation. -/
  | fg : Who
  /-- The background keep-alive task. -/
  | ka : Who
deriving DecidableEq

/-- A wire event: one message sent or one message received. -/
inductive Ev where
  /-- A message sent on the socket. -/
  | send (w : Who) : Ev
  /-- A message received from the socket. -/
  | recv (w : Who) : Ev
deriving DecidableEq

/-- State of the keep-alive wrapper: whether the keep-alive thread is
running, and the wire trace so far. -/
structure KAState where
  /-- The keep-alive thread is live. -/
  running : Bool
  /-- Wire events so far, oldest first. -/
  trace : List Ev
deriving DecidableEq

/-- `Inverter.send` (the superclass method): one send on the wire. -/
def super_send (w : Who) (s : KAState) : KAState :=
  { s with trace := s.trace ++ [Ev.send w] }

/-- `Inverter.receive` (the superclass method): one receive on the wire. -/
def super_receive (w : Who) (s : KAState) : KAState :=
  { s with trace := s.trace ++ [Ev.recv w] }

/-- `KeepAliveInverter.keep_alive`: `super().send` then `super().receive`. -/
def keep_alive (s : KAState) : KAState :=
  super_receive Who.ka (super_send Who.ka s)

/-- `KeepAliveInverter.stop_keep_alive`: signal the stop event and join the
thread; afterwards the thread is not running. -/
def stop_keep_alive (s : KAState) : KAState :=
  { s with running := false }

/-- `KeepAliveInverter.start_keep_alive`: start a fresh keep-alive thread. -/
def start_keep_alive (s : KAState) : KAState :=
  { s with running := true }

/-- The effect of `_ka_runner` when the scheduler lets the keep-alive timer
expire `n` times: each expiry performs one `keep_alive` exchange, and
nothing happens when the thread has been stopped. -/
def ka_timer_fires : Nat → KAState → KAState
  | 0, s => s
  | n + 1, s => if s.running then ka_timer_fires n (keep_alive s) else s

/-- `KeepAliveInverter.send`: stop the keep-alive thread, send, restart. -/
def kai_send (s : KAState) : KAState :=
  start_keep_alive (super_send Who.fg (stop_keep_alive s))

/-- `KeepAliveInverter.receive`: stop the keep-alive thread, receive,
restart. -/
def kai_receive (s : KAState) : KAState :=
  start_keep_alive (super_receive Who.fg (stop_keep_alive s))

/-- One `Inverter.request` executed against a `KeepAliveInverter`
(`self.send` then `self.receive` dispatch to the overrides): `n0` timer
expiries may happen before the foreground send stops the thread, and —
because `kai_send` restarts the thread before `kai_receive` stops it
again — `n1` timer expiries may happen between the foreground send and the
foreground receive. -/
def kai_request (n0 n1 : Nat) (s : KAState) : KAState :=
  kai_receive (ka_timer_fires n1 (kai_send (ka_timer_fires n0 s)))

/-- State after construction: `start_keep_alive` has run, no wire traffic
yet. -/
def initState : KAState := ⟨true, []⟩

/-- Wire trace of one foreground request under scheduler choices
`n0`, `n1`. -/
def requestTrace (n0 n1 : Nat) : List Ev :=
  (kai_request n0 n1 initState).trace

/-- The trace of `n` complete keep-alive exchanges. -/
def kaBlocks (n : Nat) : List Ev :=
  (List.replicate n [Ev.send Who.ka, Ev.recv Who.ka]).flatten

/-- A trace is a sequence of complete send-then-receive pairs, each pair
belonging to a single sender: the non-interleaving property claimed by the
spec. -/
def wellBlocked : List Ev → Bool
  | [] => true
  | Ev.send w :: Ev.recv w2 :: rest => (w == w2) && wellBlocked rest
  | _ => false

/-! ## Concrete data for the descriptor-engine claims -/

/-- The status format of the spec's descriptor-engine test vector. -/
def fmtC4 : List Nat :=
  [0x00, 0x01, 0x02, 0x04, 0x05, 0x09, 0x0a, 0x0c, 0x11, 0x17, 0x18, 0x1b,
   0x1c, 0x1d, 0x1e, 0x1f, 0x20, 0x21, 0x22, 0x27, 0x28, 0x31, 0x32, 0x33,
   0x34, 0x35, 0x36]

/-- The status payload exactly as claimed (with 18 zero bytes in the
middle): 52 bytes. -/
def payloadSpecC4 : List Nat :=
  [0x01, 0x77, 0x0b, 0xac, 0x0b, 0xe1, 0x00, 0x15, 0x00, 0x14, 0x00, 0x00,
   0x28, 0x40, 0x00, 0x01, 0x01, 0xda] ++ List.replicate 18 0 ++
  [0x02, 0x8c, 0x02, 0x76, 0x00, 0x38, 0x09, 0x1b, 0x13, 0x86, 0x04, 0xfb,
   0x00, 0x01, 0xb1, 0xcc]

/-- The status payload of the repository's own test vector (20 zero bytes
in the middle): 54 bytes, twice the length of the 27-byte format. -/
def payloadTestC4 : List Nat :=
  [0x01, 0x77, 0x0b, 0xac, 0x0b, 0xe1, 0x00, 0x15, 0x00, 0x14, 0x00, 0x00,
   0x28, 0x40, 0x00, 0x01, 0x01, 0xda] ++ List.replicate 20 0 ++
  [0x02, 0x8c, 0x02, 0x76, 0x00, 0x38, 0x09, 0x1b, 0x13, 0x86, 0x04, 0xfb,
   0x00, 0x01, 0xb1, 0xcc]

/-- Payload used in the checksum-corruption counterexample: 255 bytes of
`0xff` followed by one zero byte (256 bytes total). -/
def c5_payload : List Nat := List.replicate 255 255 ++ [0]

/-- The frame built from identifier `00 00 00` and `c5_payload`: byte sum
`65281`, checksum `ff 01`. -/
def c5_msg : List Nat := [85, 170, 0, 0, 0, 1, 0] ++ c5_payload ++ [255, 1]

/-! ## Helper lemmas -/

lemma take_append_length {α : Type} (l1 l2 : List α) : (l1 ++ l2).take l1.length = l1 := by
  induction l1 with
  | nil => rfl
  | cons a t ih =>
    show a :: (t ++ l2).take t.length = a :: t
    rw [ih]

lemma drop_append_length {α : Type} (l1 l2 : List α) : (l1 ++ l2).drop l1.length = l2 := by
  induction l1 with
  | nil => rfl
  | cons a t ih => exact ih

lemma set_append_right {α : Type} (l1 l2 : List α) (n : Nat) (a : α) :
    (l1 ++ l2).set (l1.length + n) a = l1 ++ l2.set n a := by
  induction l1 with
  | nil => simp
  | cons b t ih =>
    show (b :: (t ++ l2)).set (t.length + 1 + n) a = b :: (t ++ l2.set n a)
    have h : t.length + 1 + n = (t.length + n) + 1 := by omega
    rw [h]
    show b :: (t ++ l2).set (t.length + n) a = b :: (t ++ l2.set n a)
    rw [ih]

lemma set_append_left {α : Type} (l1 l2 : List α) (n : Nat) (h : n < l1.length) (a : α) :
    (l1 ++ l2).set n a = l1.set n a ++ l2 := by
  induction l1 generalizing n with
  | nil => simp at h
  | cons b t ih =>
    cases n with
    | zero => rfl
    | succ m =>
      show b :: (t ++ l2).set m a = b :: (t.set m a ++ l2)
      rw [ih m (by simpa using Nat.lt_of_succ_lt_succ h)]

lemma sum_set_getD (l : List Nat) (j v : Nat) (h : j < l.length) :
    (l.set j v).sum + l.getD j 0 = l.sum + v := by
  induction l generalizing j with
  | nil => simp at h
  | cons a t ih =>
    cases j with
    | zero => simp [List.sum_cons]; omega
    | succ m =>
      have hm : m < t.length := by simpa using Nat.lt_of_succ_lt_succ h
      have := ih m hm
      simp only [List.set, List.sum_cons, List.getD_cons_succ]
      omega

lemma fromBytesBE_pair (a b : Nat) : fromBytesBE [a, b] = 256 * a + b := by
  simp [fromBytesBE, List.foldl]

lemma fromBytes_toBytes (n : Nat) (h : n < 65536) :
    fromBytesBE [n / 256, n % 256] = n := by
  rw [fromBytesBE_pair]
  exact Nat.div_add_mod n 256

lemma toBytes2BE_eq_some (n : Nat) (l : List Nat) (h : toBytes2BE n = some l) :
    n < 65536 ∧ l = [n / 256, n % 256] := by
  by_cases hn : n < 65536
  · rw [toBytes2BE, if_pos hn] at h
    exact ⟨hn, (Option.some.inj h).symm⟩
  · rw [toBytes2BE, if_neg hn] at h
    exact absurd h (by simp)

/-- Parsing a well-framed stream: the magic, a 3-byte identifier, 2 size
bytes describing the payload length (within the sanity ceiling), the
payload, then the rest.  The parse reduces to the checksum comparison. -/
lemma read_message_frame (id psb payload tail : List Nat)
    (hid : id.length = 3) (hpsb : psb.length = 2)
    (hsize : fromBytesBE psb ≤ 4096) (hlen : payload.length = fromBytesBE psb) :
    read_message ([85, 170] ++ id ++ psb ++ payload ++ tail) =
      match calculate_checksum ([85, 170] ++ id ++ psb ++ payload) with
      | none => Except.error ReadErr.OverflowError
      | some c =>
        if tail.take 2 ≠ c then Except.error ReadErr.ValueErrorChecksum
        else Except.ok ((id, payload), tail.drop 2) := by
  have hstream : ([85, 170] ++ id ++ psb ++ payload ++ tail)
      = 85 :: 170 :: (id ++ (psb ++ (payload ++ tail))) := by simp
  have e1 : (85 :: 170 :: (id ++ (psb ++ (payload ++ tail)))).take 2 = [85, 170] := rfl
  have e2 : (85 :: 170 :: (id ++ (psb ++ (payload ++ tail)))).drop 2
      = id ++ (psb ++ (payload ++ tail)) := rfl
  have e3 : (id ++ (psb ++ (payload ++ tail))).take 3 = id := by
    rw [← hid]; exact take_append_length id (psb ++ (payload ++ tail))
  have e4 : (id ++ (psb ++ (payload ++ tail))).drop 3 = psb ++ (payload ++ tail) := by
    rw [← hid]; exact drop_append_length id (psb ++ (payload ++ tail))
  have e5 : (psb ++ (payload ++ tail)).take 2 = psb := by
    rw [← hpsb]; exact take_append_length psb (payload ++ tail)
  have e6 : (psb ++ (payload ++ tail)).drop 2 = payload ++ tail := by
    rw [← hpsb]; exact drop_append_length psb (payload ++ tail)
  have e7 : (payload ++ tail).take (fromBytesBE psb) = payload := by
    rw [← hlen]; exact take_append_length payload tail
  have e8 : (payload ++ tail).drop (fromBytesBE psb) = tail := by
    rw [← hlen]; exact drop_append_length payload tail
  rw [hstream]
  simp only [read_message, e1, e2, e3, e4, e5, e6, e7, e8]
  rw [if_neg (by simp), if_neg (by simp), if_neg (Nat.not_lt.mpr hsize)]

/-! ## Claim theorems -/

/-- C1 (amended): `calculate_checksum` returns the 2-byte big-endian
encoding of the byte sum — which then equals the sum mod 65536 — exactly
when the sum is below 65536; for larger sums it raises `OverflowError`
(`none`) instead of reducing modulo 65536, so it is not total.
`construct_message` appends exactly this checksum whenever it succeeds. -/
theorem checksum_amended (msg identifier payload m : List Nat) :
    (msg.sum < 65536 →
      calculate_checksum msg = some [msg.sum / 256, msg.sum % 256]
      ∧ msg.sum % 65536 = msg.sum)
    ∧ (65536 ≤ msg.sum → calculate_checksum msg = none)
    ∧ (construct_message identifier payload = some m →
        m = [85, 170] ++ identifier ++ [payload.length / 256, payload.length % 256]
              ++ payload
            ++ [([85, 170] ++ identifier ++ [payload.length / 256, payload.length % 256]
                  ++ payload).sum / 256,
                ([85, 170] ++ identifier ++ [payload.length / 256, payload.length % 256]
                  ++ payload).sum % 256]) := by
  refine ⟨fun h => ⟨?_, Nat.mod_eq_of_lt h⟩, fun h => ?_, fun hm => ?_⟩
  · simp only [calculate_checksum, toBytes2BE, if_pos h]
  · simp only [calculate_checksum, toBytes2BE, if_neg (Nat.not_lt.mpr h)]
  · unfold construct_message at hm
    rcases Option.bind_eq_some.mp hm with ⟨ps, hps, hm2⟩
    rcases Option.map_eq_some'.mp hm2 with ⟨c, hc, hm3⟩
    obtain ⟨hL65, hps_eq⟩ := toBytes2BE_eq_some _ _ hps
    subst hps_eq
    obtain ⟨hS65, hc_eq⟩ := toBytes2BE_eq_some _ _ hc
    subst hc_eq
    exact hm3.symm

/-- C1 counterexample: on 258 bytes of `0xff` (sum 65790) the checksum
function raises `OverflowError` (`none`) instead of returning the
big-endian encoding of `65790 % 65536 = 254`, refuting totality and the
mod-65536 behaviour. -/
theorem checksum_overflow_cex :
    calculate_checksum (List.replicate 258 255) = none
    ∧ (List.replicate 258 255).sum % 65536 = 254 := by
  exact ⟨by decide, by decide⟩

/-- C1 witness: the amended theorem applied to the repository's own test
vector `55 aa 01 89 00 00 04 55 0c 00 00` (sum `0x01ee`) and to the test
message built from identifier `06 01 02` and payload `10 10`. -/
theorem checksum_amended_witness :
    calculate_checksum [85, 170, 1, 137, 0, 0, 4, 85, 12, 0, 0]
      = some [[85, 170, 1, 137, 0, 0, 4, 85, 12, 0, 0].sum / 256,
              [85, 170, 1, 137, 0, 0, 4, 85, 12, 0, 0].sum % 256]
    ∧ [85, 170, 6, 1, 2, 0, 2, 16, 16, 1, 42]
        = [85, 170] ++ [6, 1, 2] ++ [[16, 16].length / 256, [16, 16].length % 256]
            ++ [16, 16]
          ++ [([85, 170] ++ [6, 1, 2] ++ [[16, 16].length / 256, [16, 16].length % 256]
                ++ [16, 16]).sum / 256,
              ([85, 170] ++ [6, 1, 2] ++ [[16, 16].length / 256, [16, 16].length % 256]
                ++ [16, 16]).sum % 256] :=
  ⟨((checksum_amended [85, 170, 1, 137, 0, 0, 4, 85, 12, 0, 0] [] [] []).1 (by decide)).1,
   (checksum_amended [] [6, 1, 2] [16, 16] [85, 170, 6, 1, 2, 0, 2, 16, 16, 1, 42]).2.2
     (by decide)⟩

/-- C2 (amended): whenever `construct_message` succeeds (the framed bytes
sum to less than 65536), parsing the produced byte stream — followed by any
further bytes — succeeds and returns exactly the identifier and payload,
for every 3-byte identifier and payload shorter than the sanity ceiling. -/
theorem roundtrip_amended (identifier payload m rest : List Nat)
    (hid : identifier.length = 3) (hlen : payload.length < 4096)
    (hm : construct_message identifier payload = some m) :
    read_message (m ++ rest) = Except.ok ((identifier, payload), rest) := by
  unfold construct_message at hm
  rcases Option.bind_eq_some.mp hm with ⟨ps, hps, hm2⟩
  rcases Option.map_eq_some'.mp hm2 with ⟨c, hc, hm3⟩
  obtain ⟨hL65, hps_eq⟩ := toBytes2BE_eq_some _ _ hps
  subst hps_eq
  obtain ⟨hS65, hc_eq⟩ := toBytes2BE_eq_some _ _ hc
  subst hm3
  have harg : ([85, 170] ++ identifier ++ [payload.length / 256, payload.length % 256]
        ++ payload ++ c) ++ rest
      = [85, 170] ++ identifier ++ [payload.length / 256, payload.length % 256]
        ++ payload ++ (c ++ rest) := by simp
  rw [harg, read_message_frame identifier [payload.length / 256, payload.length % 256]
    payload (c ++ rest) hid rfl
    (by rw [fromBytes_toBytes _ hL65]; omega)
    (fromBytes_toBytes _ hL65).symm]
  rw [hc]
  subst hc_eq
  simp

/-- C2 counterexample: for the 3-byte identifier `01 03 02` and a payload
of 258 `0xff` bytes (length 258, well under the 4096 ceiling)
`construct_message` fails with `OverflowError` (`none`), so no byte stream
is produced and the round trip cannot succeed. -/
theorem roundtrip_build_fails_cex :
    construct_message [1, 3, 2] (List.replicate 258 255) = none
    ∧ (List.replicate 258 255).length < 4096 := by
  exact ⟨by decide, by decide⟩

/-- C2 witness: the round trip on the repository's test message built from
identifier `06 01 02` and payload `10 10`. -/
theorem roundtrip_amended_witness :
    read_message ([85, 170, 6, 1, 2, 0, 2, 16, 16, 1, 42] ++ []) =
      Except.ok (([6, 1, 2], [16, 16]), []) :=
  roundtrip_amended [6, 1, 2] [16, 16] [85, 170, 6, 1, 2, 0, 2, 16, 16, 1, 42] []
    (by decide) (by decide) (by decide)

/-- C3 (code bug): the status-descriptor table's operation-mode descriptor
does not yield "absent" when its required type ID `0x0c` is missing from
the format: `OperationModeStatusType.get_value` evaluates
`operating_modes[None]`, which raises `KeyError`, contradicting the base
class's documented contract of returning `None` when the value is not
present (and crashing `Inverter.status`). -/
theorem operation_mode_keyerror :
    ∀ status_payload : List Nat,
      operationModeStatusType_get_value [] status_payload
        = Except.error PyErr.KeyError :=
  fun _ => rfl

/-- C4 counterexample: on the payload exactly as the claim states it (with
18 zero bytes in the middle, 52 bytes in total) the scaled-decimal
descriptor over `(0x35, 0x36)` with scale `-1` yields `4551.6` — the slot
of `0x36` (index 26) is sliced past the end of the payload and comes back
empty — not the claimed `11105.2`. -/
theorem decimal_c4_cex :
    decimalStatusType_get_value [0x35, 0x36] (-1) false fmtC4 payloadSpecC4
      = some ((45516 : Rat) / 10)
    ∧ ((45516 : Rat) / 10) ≠ ((111052 : Rat) / 10) := by
  constructor
  · have hint : intStatusType_get_value [0x35, 0x36] false fmtC4 payloadSpecC4
        = some 45516 := by decide
    rw [show decimalStatusType_get_value [0x35, 0x36] (-1) false fmtC4 payloadSpecC4
        = (intStatusType_get_value [0x35, 0x36] false fmtC4 payloadSpecC4).map
          (fun n => decimal_scaleb n (-1)) from rfl]
    rw [hint]
    rw [show Option.map (fun n => decimal_scaleb n (-1)) (some (45516 : Int))
        = some (decimal_scaleb 45516 (-1)) from rfl]
    rw [show decimal_scaleb 45516 (-1)
        = (45516 : Rat) * ((10 : Rat) ^ (1 : Nat))⁻¹ from rfl]
    norm_num
  · norm_num

/-- C4 (amended): with 20 zero bytes in the middle — the repository's own
test vector, 54 bytes, twice the length of the 27-byte format — the
scaled-decimal descriptor over `(0x35, 0x36)` with scale `-1` yields
exactly `11105.2`. -/
theorem decimal_c4_amended :
    decimalStatusType_get_value [0x35, 0x36] (-1) false fmtC4 payloadTestC4
      = some ((111052 : Rat) / 10) := by
  have hint : intStatusType_get_value [0x35, 0x36] false fmtC4 payloadTestC4
      = some 111052 := by decide
  rw [show decimalStatusType_get_value [0x35, 0x36] (-1) false fmtC4 payloadTestC4
      = (intStatusType_get_value [0x35, 0x36] false fmtC4 payloadTestC4).map
        (fun n => decimal_scaleb n (-1)) from rfl]
  rw [hint]
  rw [show Option.map (fun n => decimal_scaleb n (-1)) (some (111052 : Int))
      = some (decimal_scaleb 111052 (-1)) from rfl]
  rw [show decimal_scaleb 111052 (-1)
      = (111052 : Rat) * ((10 : Rat) ^ (1 : Nat))⁻¹ from rfl]
  norm_num

/-- C5 (amended): corrupting one payload byte of a built message (of
parseable length) always makes `read_message` fail, but not always with the
checksum error: when the corrupted frame's byte sum still fits in two bytes
the failure is the checksum mismatch `ValueError`; when it no longer fits,
recomputing the checksum itself raises `OverflowError`. -/
theorem corrupt_checksum_amended (identifier payload m : List Nat) (j v : Nat)
    (hid : identifier.length = 3) (hlen : payload.length ≤ 4096)
    (hm : construct_message identifier payload = some m)
    (hj : j < payload.length) (hv : payload.getD j 0 ≠ v) :
    read_message (m.set (7 + j) v) =
      if ([85, 170] ++ identifier ++ [payload.length / 256, payload.length % 256]
            ++ payload.set j v).sum < 65536
      then Except.error ReadErr.ValueErrorChecksum
      else Except.error ReadErr.OverflowError := by
  unfold construct_message at hm
  rcases Option.bind_eq_some.mp hm with ⟨ps, hps, hm2⟩
  rcases Option.map_eq_some'.mp hm2 with ⟨c, hc, hm3⟩
  obtain ⟨hL65, hps_eq⟩ := toBytes2BE_eq_some _ _ hps
  subst hps_eq
  obtain ⟨hS65, hc_eq⟩ := toBytes2BE_eq_some _ _ hc
  subst hm3
  subst hc_eq
  have h7j : 7 + j < ([85, 170] ++ identifier
      ++ [payload.length / 256, payload.length % 256] ++ payload).length := by
    simp [hid]; omega
  rw [set_append_left _ _ _ h7j]
  have h2 : (7 : Nat) + j
      = ([85, 170] ++ identifier ++ [payload.length / 256, payload.length % 256]).length
        + j := by
    simp [hid]
  rw [h2, set_append_right]
  rw [read_message_frame identifier [payload.length / 256, payload.length % 256]
    (payload.set j v) _ hid rfl
    (by rw [fromBytes_toBytes _ hL65]; exact hlen)
    (by rw [fromBytes_toBytes _ hL65]; exact List.length_set payload j v)]
  by_cases hS2 : ([85, 170] ++ identifier
      ++ [payload.length / 256, payload.length % 256] ++ payload.set j v).sum < 65536
  · rw [if_pos hS2]
    rw [show calculate_checksum ([85, 170] ++ identifier
          ++ [payload.length / 256, payload.length % 256] ++ payload.set j v)
        = some [([85, 170] ++ identifier
            ++ [payload.length / 256, payload.length % 256] ++ payload.set j v).sum / 256,
          ([85, 170] ++ identifier
            ++ [payload.length / 256, payload.length % 256] ++ payload.set j v).sum % 256]
      from by simp only [calculate_checksum, toBytes2BE, if_pos hS2]]
    have hgetd := sum_set_getD payload j v hj
    have hK : ([85, 170] ++ identifier ++ [payload.length / 256, payload.length % 256]
          ++ payload).sum + (payload.set j v).sum
        = ([85, 170] ++ identifier ++ [payload.length / 256, payload.length % 256]
          ++ payload.set j v).sum + payload.sum := by
      simp only [List.sum_append]
      omega
    have hcond : (([([85, 170] ++ identifier
          ++ [payload.length / 256, payload.length % 256] ++ payload).sum / 256,
        ([85, 170] ++ identifier
          ++ [payload.length / 256, payload.length % 256] ++ payload).sum % 256]
          : List Nat).take 2)
        ≠ [([85, 170] ++ identifier
            ++ [payload.length / 256, payload.length % 256] ++ payload.set j v).sum / 256,
          ([85, 170] ++ identifier
            ++ [payload.length / 256, payload.length % 256] ++ payload.set j v).sum % 256] := by
      intro heq
      have heq2 : [([85, 170] ++ identifier
            ++ [payload.length / 256, payload.length % 256] ++ payload).sum / 256,
          ([85, 170] ++ identifier
            ++ [payload.length / 256, payload.length % 256] ++ payload).sum % 256]
          = ([([85, 170] ++ identifier
            ++ [payload.length / 256, payload.length % 256] ++ payload.set j v).sum / 256,
          ([85, 170] ++ identifier
            ++ [payload.length / 256, payload.length % 256] ++ payload.set j v).sum % 256]
          : List Nat) := heq
      have hdm1 := Nat.div_add_mod ([85, 170] ++ identifier
        ++ [payload.length / 256, payload.length % 256] ++ payload).sum 256
      have hdm2 := Nat.div_add_mod ([85, 170] ++ identifier
        ++ [payload.length / 256, payload.length % 256] ++ payload.set j v).sum 256
      simp only [List.cons.injEq, and_true] at heq2
      omega
    exact if_pos hcond
  · rw [if_neg hS2]
    rw [show calculate_checksum ([85, 170] ++ identifier
          ++ [payload.length / 256, payload.length % 256] ++ payload.set j v) = none
      from by simp only [calculate_checksum, toBytes2BE, if_neg hS2]]

/-- C5 counterexample: build the message for identifier `00 00 00` and a
256-byte payload of 255 `0xff` bytes followed by one zero byte (frame sum
65281, checksum `ff 01`), then corrupt that final zero payload byte (stream
index 262) to `0xff`.  The corrupted frame sums to 65536, so recomputing
the checksum during parsing raises `OverflowError` — not the claimed
checksum-mismatch error. -/
theorem corrupt_overflow_cex :
    construct_message [0, 0, 0] c5_payload = some c5_msg
    ∧ c5_payload.getD 255 0 ≠ 255
    ∧ read_message (c5_msg.set 262 255) = Except.error ReadErr.OverflowError := by
  exact ⟨by decide, by decide, by rfl⟩

/-- C5 witness: corrupting the first payload byte of the repository's test
message `55 aa 06 01 02 00 02 10 10 01 2a` from `10` to `11` is detected as
a checksum mismatch. -/
theorem corrupt_checksum_amended_witness :
    read_message ([85, 170, 6, 1, 2, 0, 2, 16, 16, 1, 42].set (7 + 0) 17)
      = Except.error ReadErr.ValueErrorChecksum :=
  (corrupt_checksum_amended [6, 1, 2] [16, 16] [85, 170, 6, 1, 2, 0, 2, 16, 16, 1, 42]
    0 17 (by decide) (by decide) (by decide) (by decide) (by decide)).trans (by rfl)

lemma requestRecvLoop_spec (expected : List Nat)
    (responses : List (List Nat × List Nat)) :
    requestRecvLoop expected responses
      = (responses.takeWhile (fun r => !(expected.isPrefixOf r.1)),
         responses.find? (fun r => expected.isPrefixOf r.1)) := by
  induction responses with
  | nil => rfl
  | cons r rest ih =>
    by_cases hr : expected.isPrefixOf r.1
    · simp [requestRecvLoop, List.takeWhile_cons, List.find?_cons, hr]
    · simp only [Bool.not_eq_true] at hr
      simp [requestRecvLoop, List.takeWhile_cons, List.find?_cons, hr, ih]

/-- C6: `request` sends exactly one message (the constructed frame) and the
receive loop returns the first incoming message whose identifier starts
with the expected response identifier, discarding exactly the earlier
non-matching messages (logged as warnings, not errors); an empty expected
identifier accepts the first message received. -/
theorem request_correlation (identifier payload expected : List Nat)
    (responses : List (List Nat × List Nat)) :
    (request identifier payload expected responses).1
      = construct_message identifier payload
    ∧ (request identifier payload expected responses).2.2
        = responses.find? (fun r => expected.isPrefixOf r.1)
    ∧ (request identifier payload expected responses).2.1
        = responses.takeWhile (fun r => !(expected.isPrefixOf r.1))
    ∧ (request identifier payload [] responses).2.2 = responses.head? := by
  refine ⟨rfl, ?_, ?_, ?_⟩
  · rw [show (request identifier payload expected responses).2
        = requestRecvLoop expected responses from rfl, requestRecvLoop_spec]
  · rw [show (request identifier payload expected responses).2
        = requestRecvLoop expected responses from rfl, requestRecvLoop_spec]
  · rw [show (request identifier payload [] responses).2
        = requestRecvLoop [] responses from rfl, requestRecvLoop_spec]
    cases responses with
    | nil => rfl
    | cons r rest => simp [List.find?_cons, List.isPrefixOf]

/-- C7: error classification at the start of a parse: a read of zero bytes
where the two magic bytes are expected raises `InverterEOFError`; any other
first two bytes that are not `55 aa` raise the malformed-message
`ValueError`; and a declared payload length exceeding 4096 is rejected with
the malformed-size `ValueError`. -/
theorem read_message_error_classification :
    (∀ stream : List Nat, stream.take 2 = [] →
      read_message stream = Except.error ReadErr.InverterEOFError)
    ∧ (∀ stream : List Nat, stream.take 2 ≠ [] → stream.take 2 ≠ [85, 170] →
        read_message stream = Except.error ReadErr.ValueErrorStart)
    ∧ (∀ identifier psb rest : List Nat, identifier.length = 3 → psb.length = 2 →
        4096 < fromBytesBE psb →
        read_message ([85, 170] ++ identifier ++ psb ++ rest)
          = Except.error ReadErr.ValueErrorSize) := by
  refine ⟨fun stream h => ?_, fun stream h1 h2 => ?_, fun identifier psb rest hid hpsb hsize => ?_⟩
  · simp only [read_message, h]
    rfl
  · simp only [read_message]
    rw [if_neg h1, if_pos h2]
  · have hstream : ([85, 170] ++ identifier ++ psb ++ rest)
        = 85 :: 170 :: (identifier ++ (psb ++ rest)) := by simp
    have e1 : (85 :: 170 :: (identifier ++ (psb ++ rest))).take 2 = [85, 170] := rfl
    have e2 : (85 :: 170 :: (identifier ++ (psb ++ rest))).drop 2
        = identifier ++ (psb ++ rest) := rfl
    have e3 : (identifier ++ (psb ++ rest)).take 3 = identifier := by
      rw [← hid]; exact take_append_length identifier (psb ++ rest)
    have e4 : (identifier ++ (psb ++ rest)).drop 3 = psb ++ rest := by
      rw [← hid]; exact drop_append_length identifier (psb ++ rest)
    have e5 : (psb ++ rest).take 2 = psb := by
      rw [← hpsb]; exact take_append_length psb rest
    rw [hstream]
    simp only [read_message, e1, e2, e3, e4, e5]
    rw [if_neg (by simp), if_neg (by simp), if_pos hsize]

/-- C7 witness: the classification applied to the empty stream, to a
one-byte stream starting with `09`, and to a header declaring payload
length `0xffff`. -/
theorem read_message_error_classification_witness :
    read_message ([] : List Nat) = Except.error ReadErr.InverterEOFError
    ∧ read_message [9] = Except.error ReadErr.ValueErrorStart
    ∧ read_message ([85, 170] ++ [1, 2, 3] ++ [255, 255] ++ [])
        = Except.error ReadErr.ValueErrorSize :=
  ⟨read_message_error_classification.1 [] (by decide),
   read_message_error_classification.2.1 [9] (by decide) (by decide),
   read_message_error_classification.2.2 [1, 2, 3] [255, 255] []
     (by decide) (by decide) (by decide)⟩

/-- C8: `find_inverter` performs at most one round per advertisement, each
round sending one broadcast before waiting on accept; the first accepted
connection is returned immediately (after exactly as many broadcasts as
completed rounds), and when every round times out the call fails with
`InverterNotFoundError` after all `advertisements` broadcasts. -/
theorem find_inverter_rounds {α : Type} (accepts : List (Option α)) :
    (find_inverter accepts).1 ≤ accepts.length
    ∧ (find_inverter accepts).1
        = min accepts.length ((accepts.takeWhile Option.isNone).length + 1)
    ∧ (find_inverter accepts).2
        = (match (accepts.filterMap id).head? with
           | some c => Except.ok c
           | none => Except.error FindErr.InverterNotFoundError) := by
  induction accepts with
  | nil => exact ⟨Nat.le_refl 0, by simp [find_inverter], rfl⟩
  | cons o rest ih =>
    cases o with
    | some c =>
      refine ⟨by simp [find_inverter], ?_, rfl⟩
      simp [find_inverter, List.takeWhile_cons]
    | none =>
      obtain ⟨ih1, ih2, ih3⟩ := ih
      refine ⟨?_, ?_, ?_⟩
      · simpa [find_inverter] using Nat.succ_le_succ ih1
      · simp only [find_inverter, List.takeWhile_cons, Option.isNone_none,
          List.length_cons, List.length_nil, if_true]
        omega
      · simpa [find_inverter] using ih3

lemma ka_timer_fires_spec (n : Nat) (s : KAState) (h : s.running = true) :
    ka_timer_fires n s = ⟨true, s.trace ++ kaBlocks n⟩ := by
  induction n generalizing s with
  | zero =>
    cases s with
    | mk r t =>
      simp only at h
      subst h
      simp [ka_timer_fires, kaBlocks]
  | succ k ih =>
    rw [ka_timer_fires, if_pos h,
      ih (keep_alive s) (by simp [keep_alive, super_receive, super_send, h])]
    simp [keep_alive, super_receive, super_send, kaBlocks, List.replicate_succ]

lemma wellBlocked_kaBlocks_append (n : Nat) (t : List Ev) :
    wellBlocked (kaBlocks n ++ t) = wellBlocked t := by
  induction n with
  | zero => rfl
  | succ k ih =>
    show ((Who.ka == Who.ka) && wellBlocked (kaBlocks k ++ t)) = wellBlocked t
    rw [ih]
    simp

/-- C9 (amended): each keep-alive exchange is itself a complete
send-then-receive pair and never splits a single foreground wire operation,
but — because `KeepAliveInverter.send` restarts the keep-alive thread
before `receive` stops it again — one or more keep-alive exchanges can run
between the send and the receive of a single foreground request.  The
foreground exchange is uninterrupted on the wire exactly when no keep-alive
timer expiry falls in that window. -/
theorem keepalive_mutex_amended (n0 n1 : Nat) :
    requestTrace n0 n1
      = kaBlocks n0 ++ [Ev.send Who.fg] ++ kaBlocks n1 ++ [Ev.recv Who.fg]
    ∧ wellBlocked (kaBlocks n1) = true
    ∧ (wellBlocked (requestTrace n0 n1) = true ↔ n1 = 0) := by
  have h1 : requestTrace n0 n1
      = kaBlocks n0 ++ [Ev.send Who.fg] ++ kaBlocks n1 ++ [Ev.recv Who.fg] := by
    unfold requestTrace kai_request
    rw [ka_timer_fires_spec n0 initState rfl]
    rw [show kai_send ⟨true, initState.trace ++ kaBlocks n0⟩
        = ⟨true, (initState.trace ++ kaBlocks n0) ++ [Ev.send Who.fg]⟩ from rfl]
    rw [ka_timer_fires_spec n1 _ rfl]
    simp [kai_receive, super_receive, stop_keep_alive, start_keep_alive, initState]
  refine ⟨h1, ?_, ?_⟩
  · have h := wellBlocked_kaBlocks_append n1 []
    rw [List.append_nil] at h
    exact h.trans rfl
  · rw [h1, List.append_assoc, List.append_assoc, wellBlocked_kaBlocks_append n0]
    cases n1 with
    | zero => exact iff_of_true rfl rfl
    | succ k =>
      have hfalse : wellBlocked ([Ev.send Who.fg]
          ++ (kaBlocks (k + 1) ++ [Ev.recv Who.fg])) = false := rfl
      exact iff_of_false (by rw [hfalse]; simp) (by simp)

/-- C9 counterexample: with no timer expiry before the foreground send and
one timer expiry between the foreground send and receive, the wire trace is
`send(fg), send(ka), recv(ka), recv(fg)`: the foreground exchange is not a
contiguous send-then-receive pair, refuting the claimed non-interleaving
guarantee. -/
theorem keepalive_interleaving_cex :
    wellBlocked (requestTrace 0 1) = false := by
  rfl

/-- C9 witness: with no keep-alive expiry in the send-receive window the
request trace is well blocked. -/
theorem keepalive_mutex_amended_witness :
    wellBlocked (requestTrace 0 0) = true :=
  (keepalive_mutex_amended 0 0).2.2.mpr rfl

/-- C10: when a required type ID occurs at index `i` of the format but the
payload is shorter than `2*i + 2` bytes, the slot extraction still succeeds
and returns the truncated (possibly empty) slice `payload[2*i : 2*i+2]`
rather than absent; the integer descriptor decodes that truncated slice
big-endian (the empty slice decoding to `0`), so a too-short status payload
makes the integer and scaled-decimal descriptors produce `some 0` — a value
`Inverter.status` would include in the status mapping — instead of
omitting the field. -/
theorem truncated_payload_zero (t i : Nat) (fmt payload : List Nat) (signed : Bool)
    (hfind : bytes_find fmt t = some i) (hlen : payload.length < 2 * i + 2) :
    bytesStatusType_get_value [t] fmt payload
      = some (pySlice payload (i * 2) (i * 2 + 2))
    ∧ (pySlice payload (i * 2) (i * 2 + 2)).length < 2
    ∧ intStatusType_get_value [t] signed fmt payload
        = some (int_from_bytes signed (pySlice payload (i * 2) (i * 2 + 2)))
    ∧ (payload.length ≤ 2 * i →
        intStatusType_get_value [t] signed fmt payload = some 0
        ∧ decimalStatusType_get_value [t] 0 signed fmt payload = some 0) := by
  have hbytes : bytesStatusType_get_value [t] fmt payload
      = some (pySlice payload (i * 2) (i * 2 + 2)) := by
    simp [bytesStatusType_get_value, seqOpt, hfind]
  have hslice : (pySlice payload (i * 2) (i * 2 + 2)).length < 2 := by
    simp only [pySlice, List.length_take, List.length_drop]
    omega
  have hint : intStatusType_get_value [t] signed fmt payload
      = some (int_from_bytes signed (pySlice payload (i * 2) (i * 2 + 2))) := by
    simp [intStatusType_get_value, hbytes]
  refine ⟨hbytes, hslice, hint, fun hshort => ?_⟩
  have hd : payload.drop (i * 2) = [] := List.drop_eq_nil_of_le (by omega)
  have hnil : pySlice payload (i * 2) (i * 2 + 2) = [] := by
    simp [pySlice, hd]
  have hzero : int_from_bytes signed ([] : List Nat) = 0 := by
    simp [int_from_bytes, fromBytesBE]
  constructor
  · rw [hint, hnil, hzero]
  · rw [show decimalStatusType_get_value [t] 0 signed fmt payload
        = (intStatusType_get_value [t] signed fmt payload).map
          (fun n => decimal_scaleb n 0) from rfl, hint, hnil, hzero]
    rw [show Option.map (fun n => decimal_scaleb n 0) (some (0 : Int))
        = some (decimal_scaleb 0 0) from rfl]
    rw [show decimal_scaleb 0 0 = ((0 : Int) : Rat) * ((10 : Rat) ^ (0 : Nat)) from rfl]
    norm_num

/-- C10 witness: the status table's `pv1_input_power` descriptor
(`DecimalStatusType(0x27)`, scale 0) on format `27` with the empty payload
yields `some 0` rather than absent. -/
theorem truncated_payload_zero_witness :
    intStatusType_get_value [0x27] false [0x27] [] = some 0
    ∧ decimalStatusType_get_value [0x27] 0 false [0x27] [] = some 0 :=
  (truncated_payload_zero 0x27 0 [0x27] [] false (by decide) (by decide)).2.2.2
    (by decide)

end Samil
